import Mathlib

/-! Shallow embedding of the STM32 "Treasure Hunt" controller firmware
(`src/stm32/pygame/Core/Src/main.c`): the UART receive framer and command
dispatcher (`HAL_UART_RxCpltCallback`), the main scheduler loop (echo,
buzzer, LED, joystick service), and the joystick direction classifier.
Bytes are modelled as `Nat` (values 0..255), C strings as the list of
bytes up to the first NUL, and the shared globals as fields of
`DeviceState`.  The receive buffer `rx_buffer` together with its cursor
`rx_index` is modelled as the list `line` of the bytes accumulated since
the last reset (so `rx_index = line.length`); every read the C code
performs on `rx_buffer` during line completion touches only indices
`0..rx_index` (the NUL is written at `rx_index`), so this list view is
observationally identical to the 100-byte array. -/

namespace TreasureHunt

/-- Capacity of the receive buffer: `uint8_t rx_buffer[100]`. -/
def RX_CAPACITY : Nat := 100

/-- Capacity of the status buffer: `char status_msg[50]`. -/
def STATUS_CAPACITY : Nat := 50

/-- Joystick deadzone: `uint16_t deadzone = 50`. -/
def deadzone : Nat := 50

/-- Calibrated x center: `uint16_t mid_x = 3100`. -/
def mid_x : Nat := 3100

/-- Calibrated y center: `uint16_t mid_y = 3100`. -/
def mid_y : Nat := 3100

/-- C `isspace` on a byte: space or one of HT, LF, VT, FF, CR (9..13). -/
def isSpace (c : Nat) : Bool := c == 32 || (9 ≤ c && c ≤ 13)

/-- ASCII decimal digit test. -/
def isDigit (c : Nat) : Bool := 48 ≤ c && c ≤ 57

/-- Digit-accumulation loop of C `atoi`: consume leading digits into an
accumulator, stop at the first non-digit. -/
def atoiDigits : List Nat → Nat → Nat
  | [], acc => acc
  | c :: cs, acc => if isDigit c then atoiDigits cs (acc * 10 + (c - 48)) else acc

/-- C `atoi` on a byte string: skip leading whitespace, optional sign,
then digits; yields 0 when no digit follows (the permissive fallback). -/
def atoi (s : List Nat) : Int :=
  let s1 := s.dropWhile isSpace
  match s1 with
  | 43 :: rest => (atoiDigits rest 0 : Int)
  | 45 :: rest => -(atoiDigits rest 0 : Int)
  | _ => (atoiDigits s1 0 : Int)

/-- View a byte list as a C string: the bytes before the first NUL.
`strcpy`/`atoi` applied to `&rx_buffer[2]` read exactly these bytes. -/
def cstr (s : List Nat) : List Nat := s.takeWhile (fun c => c != 0)

/-- Read `rx_buffer[i]` after the NUL terminator has been written at the
cursor: positions inside `line` hold line bytes, the position just past
the line holds the NUL.  (The C code never reads beyond the NUL.) -/
def bufAt (l : List Nat) (i : Nat) : Nat := (l ++ [0]).getD i 0

/-- The shared mutable globals of `main.c` that the claims are about:
the receive line under assembly, the pending flags, the echo snapshot
(`echo_buffer`/`command_length`), and the application state
(`food_count`, `energy_level`, `status_msg`). -/
structure DeviceState where
  line : List Nat
  command_ready : Bool
  command_length : Nat
  echo_buffer : List Nat
  led_blink_flag : Bool
  buzz_flag : Bool
  joystick_flag : Bool
  food_count : Int
  energy_level : Int
  status_msg : List Nat
deriving Repr, DecidableEq

/-- The initial values of the globals: empty buffer, all flags clear,
`food_count = 0`, `energy_level = 0`, `status_msg = "Ready"`. -/
def initState : DeviceState :=
  { line := []
    command_ready := false
    command_length := 0
    echo_buffer := []
    led_blink_flag := false
    buzz_flag := false
    joystick_flag := false
    food_count := 0
    energy_level := 0
    status_msg := [82, 101, 97, 100, 121] }

/-- One invocation of `HAL_UART_RxCpltCallback` for USART3 with received
byte `b`: append the byte at the cursor; if the byte is LF (10) or the
cursor reached `sizeof(rx_buffer)-1 = 99`, set the LED flag, NUL-terminate,
snapshot the line into `echo_buffer`/`command_length`, dispatch on the
2-byte tag (`F:`/`E:`/`S:` mutate the application state and set
`command_ready`, `F:`/`S:` also set `buzz_flag`; any other tag is a no-op),
and reset the cursor.  Returns the new state and the completed-line
snapshot when one was produced. -/
def rxByte (s : DeviceState) (b : Nat) : DeviceState × Option (List Nat) :=
  let line := s.line ++ [b]
  if b = 10 ∨ RX_CAPACITY - 1 ≤ line.length then
    let payload := cstr (line.drop 2)
    let s1 : DeviceState :=
      { s with led_blink_flag := true
               echo_buffer := line
               command_length := line.length
               line := [] }
    let s2 : DeviceState :=
      if bufAt line 0 = 70 ∧ bufAt line 1 = 58 then
        { s1 with food_count := atoi payload
                  command_ready := true
                  buzz_flag := true }
      else if bufAt line 0 = 69 ∧ bufAt line 1 = 58 then
        { s1 with energy_level := atoi payload
                  command_ready := true }
      else if bufAt line 0 = 83 ∧ bufAt line 1 = 58 then
        { s1 with status_msg := payload
                  command_ready := true
                  buzz_flag := true }
      else s1
    (s2, some line)
  else
    ({ s with line := line }, none)

/-- The state transition of the receive interrupt handler. -/
def rxStep (s : DeviceState) (b : Nat) : DeviceState := (rxByte s b).1

/-- Feed a sequence of inbound bytes one interrupt at a time. -/
def feed (s : DeviceState) (bs : List Nat) : DeviceState := bs.foldl rxStep s

/-- Feed a byte sequence and also collect every completed-line snapshot
(every CommandLine) produced along the way, in order. -/
def feedLines : DeviceState → List Nat → DeviceState × List (List Nat)
  | s, [] => (s, [])
  | s, b :: bs =>
    let r := rxByte s b
    let rest := feedLines r.1 bs
    (rest.1, r.2.toList ++ rest.2)

/-- A completed line carries a recognized tag when its first two bytes
are `F:`, `E:` or `S:` (70/69/83 followed by 58), read as the C code
reads `rx_buffer[0]` and `rx_buffer[1]` after NUL-termination. -/
def recognizedTag (l : List Nat) : Bool :=
  (bufAt l 0 == 70 || bufAt l 0 == 69 || bufAt l 0 == 83) && bufAt l 1 == 58

/-- The joystick direction classifier of the main loop, returning the
ASCII code of the direction character `dir`: `R` (82) when
`x > mid_x + deadzone`, else `L` (76) when `x < mid_x - deadzone`, else
`U` (85) when `y > mid_y + deadzone`, else `D` (68) when
`y < mid_y - deadzone`, else `N` (78). -/
def classify (x y : Nat) : Nat :=
  if mid_x + deadzone < x then 82
  else if x < mid_x - deadzone then 76
  else if mid_y + deadzone < y then 85
  else if y < mid_y - deadzone then 68
  else 78

/-- The transmissions of one serviced joystick tick: the 3-byte direction
frame when the classified direction is not `N`, then, independently, the
3-byte `B` frame when the button level reads low (`GPIO_PIN_RESET`,
active-low pressed).  `buttonLevel = true` models a high (released) pin. -/
def joystickService (x y : Nat) (buttonLevel : Bool) : List (List Nat) :=
  let dir := classify x y
  (if dir ≠ 78 then [[dir, 13, 10]] else []) ++
    (if buttonLevel = false then [[66, 13, 10]] else [])

/-- `HAL_ADC_ConvCpltCallback`: the sample-ready interrupt raises
`joystick_flag`. -/
def adcStep (s : DeviceState) : DeviceState := { s with joystick_flag := true }

/-- One pass of the main `while (1)` loop, given the current joystick
sample `(x, y)` and button level: when `command_ready`, transmit
`command_length` bytes of `echo_buffer` and clear the flag (the display
refresh is an external side effect); service and clear `buzz_flag` and
`led_blink_flag`; when `joystick_flag`, classify the sample and transmit
the direction/button frames, clearing the flag.  Returns the new state
and the list of transmitted frames in order. -/
def mainPass (s : DeviceState) (x y : Nat) (btn : Bool) :
    DeviceState × List (List Nat) :=
  let echoTx := if s.command_ready then [s.echo_buffer.take s.command_length] else []
  let s := if s.command_ready then { s with command_ready := false } else s
  let s := if s.buzz_flag then { s with buzz_flag := false } else s
  let s := if s.led_blink_flag then { s with led_blink_flag := false } else s
  let joyTx := if s.joystick_flag then joystickService x y btn else []
  let s := if s.joystick_flag then { s with joystick_flag := false } else s
  (s, echoTx ++ joyTx)

/-- Number of bytes `strcpy(status_msg, &rx_buffer[2])` writes into the
50-byte `status_msg` buffer when line `l` is dispatched with tag `S:`:
the payload C string plus its NUL terminator. -/
def statusWriteLen (l : List Nat) : Nat := (cstr (l.drop 2)).length + 1

/-- The boolean tag test unfolded to its propositional form. -/
theorem recognizedTag_iff (l : List Nat) :
    recognizedTag l = true ↔
      ((bufAt l 0 = 70 ∨ bufAt l 0 = 69 ∨ bufAt l 0 = 83) ∧ bufAt l 1 = 58) := by
  simp [recognizedTag]
  tauto

/-- Receiving a byte that does not complete the line (not LF, cursor not
yet at capacity − 1) only appends it to the line buffer. -/
theorem rxByte_not_complete (s : DeviceState) (b : Nat) (hb : b ≠ 10)
    (hlen : s.line.length + 1 < RX_CAPACITY - 1) :
    rxByte s b = ({ s with line := s.line ++ [b] }, none) := by
  unfold rxByte
  rw [if_neg]
  simp only [List.length_append, List.length_cons, List.length_nil]
  omega

/-- Receiving a byte that completes the line: the snapshot is the whole
accumulated line, the echo buffer and recorded length capture it, the
cursor resets, the LED flag rises; `command_ready` rises exactly on a
recognized tag, and an unrecognized tag leaves `command_ready`, the
application state and the buzzer flag untouched. -/
theorem rxByte_complete (s : DeviceState) (b : Nat)
    (h : b = 10 ∨ RX_CAPACITY - 1 ≤ (s.line ++ [b]).length) :
    (rxByte s b).2 = some (s.line ++ [b]) ∧
    (rxByte s b).1.echo_buffer = s.line ++ [b] ∧
    (rxByte s b).1.command_length = (s.line ++ [b]).length ∧
    (rxByte s b).1.line = [] ∧
    (rxByte s b).1.led_blink_flag = true ∧
    (recognizedTag (s.line ++ [b]) = true → (rxByte s b).1.command_ready = true) ∧
    (recognizedTag (s.line ++ [b]) = false →
      (rxByte s b).1.command_ready = s.command_ready ∧
      (rxByte s b).1.food_count = s.food_count ∧
      (rxByte s b).1.energy_level = s.energy_level ∧
      (rxByte s b).1.status_msg = s.status_msg ∧
      (rxByte s b).1.buzz_flag = s.buzz_flag) := by
  unfold rxByte
  rw [if_pos h]
  split_ifs with h1 h2 h3 <;>
    simp_all [recognizedTag_iff]
  tauto

/-- Feeding a byte sequence reaches the same state whether or not the
completed-line snapshots are collected along the way. -/
theorem feed_eq_feedLines (bs : List Nat) (s : DeviceState) :
    feed s bs = (feedLines s bs).1 := by
  induction bs generalizing s with
  | nil => rfl
  | cons b bs ih =>
    simp only [feed, List.foldl_cons, feedLines] at *
    exact ih (rxStep s b)

/-- Collected snapshots compose over concatenation of the input. -/
theorem feedLines_append (l1 l2 : List Nat) (s : DeviceState) :
    feedLines s (l1 ++ l2) =
      ((feedLines (feedLines s l1).1 l2).1,
        (feedLines s l1).2 ++ (feedLines (feedLines s l1).1 l2).2) := by
  induction l1 generalizing s with
  | nil => simp [feedLines]
  | cons b bs ih =>
    simp only [List.cons_append, feedLines, List.append_eq, ih (rxByte s b).1,
      List.append_assoc]

/-- Feeding LF-free bytes that keep the cursor below capacity − 1 only
accumulates them in the line buffer and produces no snapshot. -/
theorem feedLines_no_complete (bs : List Nat) (s : DeviceState)
    (hlf : ∀ b ∈ bs, b ≠ 10)
    (hlen : s.line.length + bs.length < RX_CAPACITY - 1) :
    feedLines s bs = ({ s with line := s.line ++ bs }, []) := by
  induction bs generalizing s with
  | nil => simp [feedLines]
  | cons b bs ih =>
    have hb : b ≠ 10 := hlf b (List.mem_cons_self b bs)
    have hstep : rxByte s b = ({ s with line := s.line ++ [b] }, none) := by
      apply rxByte_not_complete s b hb
      simp only [List.length_cons] at hlen
      omega
    have hrest := ih { s with line := s.line ++ [b] }
      (fun c hc => hlf c (List.mem_cons_of_mem b hc))
      (by simp only [List.length_append, List.length_cons, List.length_nil]
          simp only [List.length_cons] at hlen
          omega)
    simp only [feedLines, hstep, hrest, Option.toList_none, List.nil_append,
      List.append_assoc, List.singleton_append]

/-- C1 counterexample: feeding `"S:Hi\n"` to the receive path stores the
payload including the line terminator, so `status_text` becomes
`"Hi\n"` (`[72, 105, 10]`), not `"Hi"` (`[72, 105]`) as claimed. -/
theorem claim1_counterexample :
    (feed initState [83, 58, 72, 105, 10]).status_msg ≠ [72, 105] := by
  decide

/-- C1 (amended): feeding `"F:42\n"` sets `food_count = 42` and raises the
alert (buzzer) flag; feeding `"E:-5\n"` sets `energy_level = -5` without
raising it; feeding `"S:Hi\n"` sets `status_text` to the payload with its
terminator, `"Hi\n"`, and raises the alert flag; feeding `"Z:1\n"`
mutates no ApplicationState field. -/
theorem claim1_dispatch_examples :
    (feed initState [70, 58, 52, 50, 10]).food_count = 42 ∧
    (feed initState [70, 58, 52, 50, 10]).buzz_flag = true ∧
    (feed initState [69, 58, 45, 53, 10]).energy_level = -5 ∧
    (feed initState [69, 58, 45, 53, 10]).buzz_flag = false ∧
    (feed initState [83, 58, 72, 105, 10]).status_msg = [72, 105, 10] ∧
    (feed initState [83, 58, 72, 105, 10]).buzz_flag = true ∧
    (feed initState [90, 58, 49, 10]).food_count = initState.food_count ∧
    (feed initState [90, 58, 49, 10]).energy_level = initState.energy_level ∧
    (feed initState [90, 58, 49, 10]).status_msg = initState.status_msg := by
  decide

/-- C6: `classify` is a pure total function with the fixed tie-break
order: result `R` (82) exactly when `x > mid_x + deadzone` regardless of
`y`; else `L` (76) exactly when `x < mid_x - deadzone`; else `U` (85)
exactly when `y > mid_y + deadzone`; else `D` (68) exactly when
`y < mid_y - deadzone`; else `N` (78) — in particular every sample inside
the deadzone box (strictly or not) classifies as Neutral. -/
theorem claim6_classify_cases (x y : Nat) :
    (classify x y = 82 ↔ mid_x + deadzone < x) ∧
    (classify x y = 76 ↔ (x ≤ mid_x + deadzone ∧ x < mid_x - deadzone)) ∧
    (classify x y = 85 ↔
      (x ≤ mid_x + deadzone ∧ mid_x - deadzone ≤ x ∧ mid_y + deadzone < y)) ∧
    (classify x y = 68 ↔
      (x ≤ mid_x + deadzone ∧ mid_x - deadzone ≤ x ∧ y ≤ mid_y + deadzone ∧
        y < mid_y - deadzone)) ∧
    (classify x y = 78 ↔
      (mid_x - deadzone ≤ x ∧ x ≤ mid_x + deadzone ∧ mid_y - deadzone ≤ y ∧
        y ≤ mid_y + deadzone)) := by
  simp only [classify, mid_x, mid_y, deadzone]
  split_ifs <;> omega

/-- C2 counterexample: the line `"Z:1\n"` is fully framed (its length is
recorded and the snapshot taken) but, its tag being unrecognized,
`command_ready` never rises, so the following main-loop pass transmits
nothing at all — the line is not echoed. -/
theorem claim2_counterexample :
    (feed initState [90, 58, 49, 10]).command_length = 4 ∧
    (mainPass (feed initState [90, 58, 49, 10]) 0 0 true).2 = [] := by
  decide

/-- C2 (amended): for every inbound byte that completes a line whose tag
is recognized (`F:`, `E:` or `S:`), the main-loop pass immediately
following the completion transmits first the echo, and the echoed bytes
equal, bit for bit, the bytes received for that line; a line with an
unrecognized tag does not itself raise `command_ready`, so when that flag
was clear at its completion the following pass transmits no echo for it
(at most the joystick frames of a pending sample). -/
theorem claim2_echo_roundtrip (s : DeviceState) (b x y : Nat) (btn : Bool)
    (hc : b = 10 ∨ RX_CAPACITY - 1 ≤ (s.line ++ [b]).length) :
    (recognizedTag (s.line ++ [b]) = true →
      (mainPass (rxStep s b) x y btn).2.head? = some (s.line ++ [b])) ∧
    (recognizedTag (s.line ++ [b]) = false → s.command_ready = false →
      (mainPass (rxStep s b) x y btn).2 =
        if (rxStep s b).joystick_flag then joystickService x y btn else []) := by
  obtain ⟨-, hecho, hlen, -, -, hcr, hun⟩ := rxByte_complete s b hc
  constructor
  · intro ht
    have hcr' := hcr ht
    simp only [mainPass, rxStep] at *
    simp [hcr', hecho, hlen, List.take_length]
  · intro ht hcmd
    have h0 := (hun ht).1
    rw [hcmd] at h0
    simp only [mainPass, rxStep] at *
    split_ifs <;> simp_all

/-- C2 witness: completing the line `"F:\n"` and running one main-loop
pass echoes exactly the received bytes, while a bare LF (an unrecognized
line) completing with `command_ready` clear is followed by a pass that
transmits no echo. -/
theorem claim2_witness :
    (mainPass (rxStep { initState with line := [70, 58] } 10) 0 0 true).2.head? =
      some ({ initState with line := [70, 58] }.line ++ [10]) ∧
    (mainPass (rxStep initState 10) 0 0 true).2 =
      (if (rxStep initState 10).joystick_flag then joystickService 0 0 true
        else []) :=
  ⟨(claim2_echo_roundtrip { initState with line := [70, 58] } 10 0 0 true
      (Or.inl rfl)).1 (by decide),
    (claim2_echo_roundtrip initState 10 0 0 true (Or.inl rfl)).2 (by decide) rfl⟩

/-- C3 counterexample: the receive interrupt handler alone (no main-loop
pass ever runs here) mutates ApplicationState — feeding `"F:42\n"` byte
by byte through `HAL_UART_RxCpltCallback` changes `food_count`, refuting
"ApplicationState is never written from interrupt context". -/
theorem claim3_counterexample :
    (feed initState [70, 58, 52, 50, 10]).food_count ≠ initState.food_count := by
  decide

/-- C3 (amended): command dispatch (tag parsing and mutation of
`food_count` / `energy_level` / `status_text`) happens inside the UART
receive interrupt handler at line completion; the main-loop pass never
writes any ApplicationState field — it only echoes, refreshes the
display, and leaves `command_ready` cleared. -/
theorem claim3_dispatch_in_interrupt :
    (∀ (s : DeviceState) (x y : Nat) (btn : Bool),
      (mainPass s x y btn).1.food_count = s.food_count ∧
      (mainPass s x y btn).1.energy_level = s.energy_level ∧
      (mainPass s x y btn).1.status_msg = s.status_msg ∧
      (mainPass s x y btn).1.command_ready = false) ∧
    (feed initState [70, 58, 52, 50, 10]).food_count = 42 := by
  constructor
  · intro s x y btn
    simp only [mainPass]
    split_ifs <;> simp_all
  · decide

/-- C4 counterexample: the line `"Z:1\n"` completes (the LED flag rises,
the length is recorded, the cursor resets) yet `command_ready` stays
false — completion does not set `command_ready` "regardless of the
line's content". -/
theorem claim4_counterexample :
    (feed initState [90, 58, 49, 10]).led_blink_flag = true ∧
    (feed initState [90, 58, 49, 10]).line = [] ∧
    (feed initState [90, 58, 49, 10]).command_length = 4 ∧
    (feed initState [90, 58, 49, 10]).command_ready = false := by
  decide

/-- C4 (amended): for every inbound byte that completes a line (the byte
is LF, or the cursor reached capacity − 1 = 99), the receive handler
NUL-terminates, snapshots the first cursor bytes into the echo buffer
with their count, resets the cursor to 0 and raises the LED flag
regardless of content; `command_ready` however rises only when the
line's tag is recognized, and is left unchanged otherwise. -/
theorem claim4_line_completion (s : DeviceState) (b : Nat)
    (h : b = 10 ∨ RX_CAPACITY - 1 ≤ (s.line ++ [b]).length) :
    (rxStep s b).echo_buffer = s.line ++ [b] ∧
    (rxStep s b).command_length = (s.line ++ [b]).length ∧
    (rxStep s b).line = [] ∧
    (rxStep s b).led_blink_flag = true ∧
    (recognizedTag (s.line ++ [b]) = true → (rxStep s b).command_ready = true) ∧
    (recognizedTag (s.line ++ [b]) = false →
      (rxStep s b).command_ready = s.command_ready) := by
  obtain ⟨-, h1, h2, h3, h4, h5, h6⟩ := rxByte_complete s b h
  exact ⟨h1, h2, h3, h4, h5, fun ht => (h6 ht).1⟩

/-- C4 witness: the completion contract evaluated at a bare LF received
from the initial state. -/
theorem claim4_witness :
    (rxStep initState 10).echo_buffer = initState.line ++ [10] ∧
    (rxStep initState 10).command_length = (initState.line ++ [10]).length ∧
    (rxStep initState 10).line = [] ∧
    (rxStep initState 10).led_blink_flag = true ∧
    (recognizedTag (initState.line ++ [10]) = true →
      (rxStep initState 10).command_ready = true) ∧
    (recognizedTag (initState.line ++ [10]) = false →
      (rxStep initState 10).command_ready = initState.command_ready) :=
  claim4_line_completion initState 10 (Or.inl rfl)

/-- C5 (code bug): dispatching the completed 63-byte line
`"S:" ++ 60 × 'a' ++ "\n"` (well inside the 99-byte line limit) makes
`strcpy` write 62 bytes — the 61-byte payload plus its NUL terminator —
into the 50-byte `status_msg` buffer, exceeding its bounds; the claim's
promised truncation does not exist in the code. -/
theorem claim5_status_overflow :
    (feed initState ([83, 58] ++ List.replicate 60 97 ++ [10])).status_msg.length = 61 ∧
    statusWriteLen ([83, 58] ++ List.replicate 60 97 ++ [10]) = 62 ∧
    STATUS_CAPACITY < statusWriteLen ([83, 58] ++ List.replicate 60 97 ++ [10]) := by
  set_option maxRecDepth 4000 in decide

/-- C7: feeding 100 LF-free bytes to the receive framer produces exactly
one CommandLine, the forced-truncation prefix of length 99, after which
the cursor has been reset and the 100th byte sits as the first byte of
the next line. -/
theorem claim7_forced_truncation (bs : List Nat)
    (hlen : bs.length = 100) (hlf : ∀ b ∈ bs, b ≠ 10) :
    (feedLines initState bs).2 = [bs.take 99] ∧
    (bs.take 99).length = 99 ∧
    (feed initState bs).line = bs.drop 99 ∧
    (bs.drop 99).length = 1 := by
  have hdlen : (bs.drop 98).length = 2 := by simp [hlen]
  obtain ⟨a, c, hac⟩ := List.length_eq_two.mp hdlen
  have hbs : bs = bs.take 98 ++ [a, c] := by
    rw [← hac]; exact (List.take_append_drop 98 bs).symm
  have ht98 : (bs.take 98).length = 98 := by simp [hlen]
  have hlf98 : ∀ b ∈ bs.take 98, b ≠ 10 :=
    fun b hb => hlf b (List.take_subset 98 bs hb)
  have hc10 : c ≠ 10 := by
    refine hlf c (List.drop_subset 98 bs ?_)
    rw [hac]; simp
  have h1 : feedLines initState (bs.take 98) =
      ({ initState with line := bs.take 98 }, []) := by
    have := feedLines_no_complete (bs.take 98) initState hlf98
      (by simp [initState, ht98, RX_CAPACITY])
    simpa [initState] using this
  have hcomp : (rxByte { initState with line := bs.take 98 } a).2 =
      some (bs.take 98 ++ [a]) ∧
      (rxByte { initState with line := bs.take 98 } a).1.line = [] := by
    have h := rxByte_complete { initState with line := bs.take 98 } a
      (Or.inr (by simp [ht98, RX_CAPACITY]))
    exact ⟨h.1, h.2.2.2.1⟩
  have h2 : feedLines { initState with line := bs.take 98 } [a, c] =
      ((feedLines (rxByte { initState with line := bs.take 98 } a).1 [c]).1,
        [bs.take 98 ++ [a]] ++
          (feedLines (rxByte { initState with line := bs.take 98 } a).1 [c]).2) := by
    simp [feedLines, hcomp.1]
  have h3 : feedLines (rxByte { initState with line := bs.take 98 } a).1 [c] =
      ({ (rxByte { initState with line := bs.take 98 } a).1 with line := [c] }, []) := by
    have := feedLines_no_complete [c]
      (rxByte { initState with line := bs.take 98 } a).1
      (by intro b hb; simp at hb; omega)
      (by simp [hcomp.2, RX_CAPACITY])
    simpa [hcomp.2] using this
  have htake99 : bs.take 99 = bs.take 98 ++ [a] := by
    conv_lhs => rw [hbs]
    rw [List.take_append_eq_append_take]
    rw [List.take_of_length_le (by omega), ht98]
    norm_num
  have hdrop99 : bs.drop 99 = [c] := by
    conv_lhs => rw [hbs]
    rw [List.drop_append_eq_append_drop]
    rw [List.drop_of_length_le (by omega), ht98]
    norm_num
  have hmain : feedLines initState bs =
      (({ (rxByte { initState with line := bs.take 98 } a).1 with line := [c] }),
        [bs.take 98 ++ [a]]) := by
    conv_lhs => rw [hbs]
    rw [feedLines_append, h1]
    simp [h2, h3]
  refine ⟨?_, by simp [hlen], ?_, by simp [hlen]⟩
  · rw [hmain, htake99]
  · rw [feed_eq_feedLines, hmain, hdrop99]

/-- C7 witness: 100 copies of byte `A` (65) produce exactly the one
truncated 99-byte CommandLine and leave the 100th byte as the start of
the next line. -/
theorem claim7_witness :
    (feedLines initState (List.replicate 100 65)).2 = [(List.replicate 100 65).take 99] ∧
    ((List.replicate 100 65).take 99).length = 99 ∧
    (feed initState (List.replicate 100 65)).line = (List.replicate 100 65).drop 99 ∧
    ((List.replicate 100 65).drop 99).length = 1 :=
  claim7_forced_truncation (List.replicate 100 65) (by simp) (by decide)

/-- C8: any LF-free byte sequence shorter than 99 bytes, fed one byte at
a time from the initial state, produces no CommandLine, leaves
`command_ready` false, and leaves the cursor equal to the sequence
length. -/
theorem claim8_short_lines (bs : List Nat) (hlf : ∀ b ∈ bs, b ≠ 10)
    (hlen : bs.length < RX_CAPACITY - 1) :
    (feedLines initState bs).2 = [] ∧
    (feed initState bs).command_ready = false ∧
    (feed initState bs).line.length = bs.length := by
  have h := feedLines_no_complete bs initState hlf (by simpa [initState] using hlen)
  rw [feed_eq_feedLines, h]
  simp [initState]

/-- C8 witness: the two LF-free bytes `"F:"` leave the framer mid-line
with cursor 2 and nothing published. -/
theorem claim8_witness :
    (feedLines initState [70, 58]).2 = [] ∧
    (feed initState [70, 58]).command_ready = false ∧
    (feed initState [70, 58]).line.length = [70, 58].length :=
  claim8_short_lines [70, 58] (by decide) (by decide)

/-- C9: the transmit gate is level-triggered — on any serviced joystick
tick (whatever state the device was in before the sample-ready interrupt
raised `joystick_flag`), a non-Neutral classified direction transmits the
3-byte frame `{dir, CR, LF}`, and, independently of the direction result,
a low (pressed, active-low) button level transmits `{B, CR, LF}`; since
this holds for every such tick, holding the stick or button repeats the
transmission every serviced period. -/
theorem claim9_level_triggered (s : DeviceState) (x y : Nat) (btn : Bool) :
    (classify x y ≠ 78 → [classify x y, 13, 10] ∈ (mainPass (adcStep s) x y btn).2) ∧
    (btn = false → [66, 13, 10] ∈ (mainPass (adcStep s) x y btn).2) := by
  constructor
  · intro h
    simp only [mainPass, adcStep, joystickService]
    split_ifs <;> simp_all
  · intro h
    simp only [mainPass, adcStep, joystickService]
    split_ifs <;> simp_all

/-- C9 witness: the sample (3200, 0) with the button held low transmits
both the direction frame and the button frame on a serviced tick. -/
theorem claim9_witness :
    [classify 3200 0, 13, 10] ∈ (mainPass (adcStep initState) 3200 0 false).2 ∧
    [66, 13, 10] ∈ (mainPass (adcStep initState) 3200 0 false).2 :=
  ⟨(claim9_level_triggered initState 3200 0 false).1 (by decide),
    (claim9_level_triggered initState 3200 0 false).2 rfl⟩

/-- C10: every completed line — recognized tag or not — raises the LED
acknowledgement flag and resets the cursor to 0; when the tag is
unrecognized this still happens even though `command_ready` is left
unchanged and no ApplicationState field changes. -/
theorem claim10_led_on_every_line (s : DeviceState) (b : Nat)
    (h : b = 10 ∨ RX_CAPACITY - 1 ≤ (s.line ++ [b]).length) :
    (rxStep s b).led_blink_flag = true ∧
    (rxStep s b).line = [] ∧
    (recognizedTag (s.line ++ [b]) = false →
      (rxStep s b).command_ready = s.command_ready ∧
      (rxStep s b).food_count = s.food_count ∧
      (rxStep s b).energy_level = s.energy_level ∧
      (rxStep s b).status_msg = s.status_msg) := by
  obtain ⟨-, -, -, h3, h4, -, h6⟩ := rxByte_complete s b h
  exact ⟨h4, h3, fun ht =>
    ⟨(h6 ht).1, (h6 ht).2.1, (h6 ht).2.2.1, (h6 ht).2.2.2.1⟩⟩

/-- C10 witness: a bare LF completes an unrecognized (empty-tag) line —
the LED flag rises and the cursor resets while `command_ready` and the
application state are untouched. -/
theorem claim10_witness :
    (rxStep initState 10).led_blink_flag = true ∧
    (rxStep initState 10).line = [] ∧
    (rxStep initState 10).command_ready = initState.command_ready ∧
    (rxStep initState 10).food_count = initState.food_count ∧
    (rxStep initState 10).energy_level = initState.energy_level ∧
    (rxStep initState 10).status_msg = initState.status_msg :=
  have h := claim10_led_on_every_line initState 10 (Or.inl rfl)
  ⟨h.1, h.2.1, (h.2.2 (by decide)).1, (h.2.2 (by decide)).2.1,
    (h.2.2 (by decide)).2.2.1, (h.2.2 (by decide)).2.2.2⟩

end TreasureHunt
